import Mathlib

/-!
Shallow embedding of the restaurant-ordering backend (FastAPI + Supabase).

Conventions of the embedding:
* The external data store is modelled as explicit Lean lists of rows; a
  `select ... eq ... single()` call becomes `List.find?` (supabase `single()`
  raises when zero rows match, which each caller catches, so "no row" and
  "lookup exception" collapse to the same branch they collapse to in the
  source).
* `HTTPException` raising becomes an `Except HttpError` result.
* Python `Decimal` values are modelled as `ℚ`: every operation the source
  performs on them (addition, multiplication by an integer quantity) is exact
  in `Decimal`, hence exact in `ℚ`.
* Store-side insert outcomes (`response.data` empty or not) and generated row
  ids are inputs of the model (`Eff`), mirroring that they are decided by the
  external store, not by this code.
-/

namespace RestauBack

/-- HTTP error taxonomy used via `HTTPException` in the source. -/
inductive HttpError where
  | badRequest (detail : String)
  | notFound (detail : String)
  | forbidden (detail : String)
  | internalError (detail : String)
  deriving DecidableEq, Repr

/-- Row of the `restaurants` table (fields the modelled code reads). -/
structure Restaurant where
  id : String
  owner_id : String
  deriving DecidableEq, Repr

/-- Row of the `orders` table (fields the modelled code reads and writes). -/
structure OrderRow where
  id : String
  restaurant_id : String
  status : String
  deriving DecidableEq, Repr

/-- Row of the `menu_categories` table. -/
structure MenuCategory where
  id : String
  restaurant_id : String
  name : String
  position : Int
  is_active : Bool
  deriving DecidableEq, Repr

/-- Row of the `menu_items` table. -/
structure MenuItem where
  id : String
  restaurant_id : String
  category_id : String
  name : String
  description : Option String
  base_price : ℚ
  image_url : Option String
  is_available : Bool
  position : Int
  deriving DecidableEq, Repr

/-- Row of the `menu_item_sides` table. -/
structure MenuItemSide where
  id : String
  menu_item_id : String
  name : String
  deriving DecidableEq, Repr

/-- The seven status strings of `VALID_STATUSES` in `orders/service.py`. -/
def VALID_STATUSES : List String :=
  ["pending", "confirmed", "preparing", "ready", "delivering", "completed", "canceled"]

/-- Embeds `verify_restaurant_ownership` (`menu_categories/service.py` and the
identical copy in `orders/service.py`): a single-row lookup filtered by both
the restaurant id and the owner id; any store exception (including the one
`single()` raises when no row matches) is caught and yields `false`.
`storeFails` is true when the store call raises for an external reason. -/
def verify_restaurant_ownership (restaurants : List Restaurant) (storeFails : Bool)
    (user_id restaurant_id : String) : Bool :=
  if storeFails then
    false
  else
    (restaurants.find? (fun r => r.id == restaurant_id && r.owner_id == user_id)).isSome

/-- Embeds `verify_order_ownership` (`orders/service.py`): fetch the order
joined with its restaurant owner; missing order (or failed join) is 404,
a different owner is 403, otherwise the order row is returned. -/
def verify_order_ownership (restaurants : List Restaurant) (orders : List OrderRow)
    (user_id order_id : String) : Except HttpError OrderRow :=
  match orders.find? (fun o => o.id == order_id) with
  | none => .error (.notFound "Order not found")
  | some o =>
    match restaurants.find? (fun r => r.id == o.restaurant_id) with
    | none => .error (.notFound "Order not found")
    | some r =>
      if r.owner_id != user_id then
        .error (.forbidden "You don't have access to this order")
      else
        .ok o

/-- Embeds the ownership prologue of `update_category` / `delete_category`
(`menu_categories/service.py`): fetch the category joined with its restaurant
owner; absent category (or failed join) is 404, different owner is 403. -/
def category_ownership_check (restaurants : List Restaurant) (categories : List MenuCategory)
    (user_id category_id : String) : Except HttpError MenuCategory :=
  match categories.find? (fun c => c.id == category_id) with
  | none => .error (.notFound "Category not found")
  | some c =>
    match restaurants.find? (fun r => r.id == c.restaurant_id) with
    | none => .error (.notFound "Category not found")
    | some r =>
      if r.owner_id != user_id then
        .error (.forbidden "You don't have access to this category")
      else
        .ok c

/-- Embeds the ownership prologue of `update_item` / `delete_item`
(`menu_items/service.py`): same join-then-compare shape as for categories. -/
def item_ownership_check (restaurants : List Restaurant) (items : List MenuItem)
    (user_id item_id : String) : Except HttpError MenuItem :=
  match items.find? (fun m => m.id == item_id) with
  | none => .error (.notFound "Menu item not found")
  | some m =>
    match restaurants.find? (fun r => r.id == m.restaurant_id) with
    | none => .error (.notFound "Menu item not found")
    | some r =>
      if r.owner_id != user_id then
        .error (.forbidden "You don't have access to this item")
      else
        .ok m

/-- Detail string of the invalid-status rejection in `update_order_status`
(the source joins the members of a Python set; one fixed enumeration order is
used here). -/
def invalidStatusDetail : String :=
  "Invalid status. Must be one of: pending, confirmed, preparing, ready, delivering, completed, canceled"

/-- Embeds `update_order_status` (`orders/service.py`): validate the status
string against `VALID_STATUSES` first, then check ownership, then write the
single-field update. Returns the response together with the orders table
after the call. The source additionally re-fetches the order's items and
sides to decorate the response; that read-only hydration does not touch the
`orders` table or the returned status and is not modelled. -/
def update_order_status (restaurants : List Restaurant) (orders : List OrderRow)
    (user_id order_id new_status : String) :
    Except HttpError OrderRow × List OrderRow :=
  if !(VALID_STATUSES.contains new_status) then
    (.error (.badRequest invalidStatusDetail), orders)
  else
    match verify_order_ownership restaurants orders user_id order_id with
    | .error e => (.error e, orders)
    | .ok _ =>
      let updated := orders.map (fun o =>
        if o.id == order_id then { o with status := new_status } else o)
      match updated.find? (fun o => o.id == order_id) with
      | none => (.error (.badRequest "Failed to update order status"), updated)
      | some o => (.ok o, updated)

/-- Partial-update payload of `MenuCategoryUpdate` (`menu_categories/schemas.py`). -/
structure MenuCategoryUpdate where
  name : Option String
  position : Option Int
  is_active : Option Bool
  deriving DecidableEq, Repr

/-- Partial-update payload of `MenuItemUpdate` (`menu_items/schemas.py`). -/
structure MenuItemUpdate where
  category_id : Option String
  name : Option String
  description : Option String
  base_price : Option ℚ
  image_url : Option String
  is_available : Option Bool
  position : Option Int
  deriving DecidableEq, Repr

/-- Whether the category patch has zero non-null fields (the source builds
`update_data` by dropping `None` values and tests it for emptiness). -/
def MenuCategoryUpdate.isEmptyPatch (d : MenuCategoryUpdate) : Bool :=
  d.name.isNone && d.position.isNone && d.is_active.isNone

/-- Whether the item patch has zero non-null fields. -/
def MenuItemUpdate.isEmptyPatch (d : MenuItemUpdate) : Bool :=
  d.category_id.isNone && d.name.isNone && d.description.isNone && d.base_price.isNone
    && d.image_url.isNone && d.is_available.isNone && d.position.isNone

/-- Applies the non-null fields of a category patch to a row (the store-side
effect of `update(update_data)`). -/
def applyCategoryPatch (d : MenuCategoryUpdate) (c : MenuCategory) : MenuCategory :=
  { c with
    name := d.name.getD c.name
    position := d.position.getD c.position
    is_active := d.is_active.getD c.is_active }

/-- Applies the non-null fields of an item patch to a row. -/
def applyItemPatch (d : MenuItemUpdate) (m : MenuItem) : MenuItem :=
  { m with
    category_id := d.category_id.getD m.category_id
    name := d.name.getD m.name
    description := match d.description with | some s => some s | none => m.description
    base_price := d.base_price.getD m.base_price
    image_url := match d.image_url with | some s => some s | none => m.image_url
    is_available := d.is_available.getD m.is_available
    position := d.position.getD m.position }

/-- Embeds `update_category` (`menu_categories/service.py`): ownership check,
then rejection of an all-null patch with 400 "No fields to update", then the
store-side update. Returns the response together with the table after the
call. -/
def update_category (restaurants : List Restaurant) (categories : List MenuCategory)
    (user_id category_id : String) (data : MenuCategoryUpdate) :
    Except HttpError MenuCategory × List MenuCategory :=
  match category_ownership_check restaurants categories user_id category_id with
  | .error e => (.error e, categories)
  | .ok _ =>
    if MenuCategoryUpdate.isEmptyPatch data then
      (.error (.badRequest "No fields to update"), categories)
    else
      let updated := categories.map (fun c =>
        if c.id == category_id then applyCategoryPatch data c else c)
      match updated.find? (fun c => c.id == category_id) with
      | some c => (.ok c, updated)
      | none => (.error (.internalError "Database error"), updated)

/-- Embeds `update_item` (`menu_items/service.py`): same shape as
`update_category` with the item patch. -/
def update_item (restaurants : List Restaurant) (items : List MenuItem)
    (user_id item_id : String) (data : MenuItemUpdate) :
    Except HttpError MenuItem × List MenuItem :=
  match item_ownership_check restaurants items user_id item_id with
  | .error e => (.error e, items)
  | .ok _ =>
    if MenuItemUpdate.isEmptyPatch data then
      (.error (.badRequest "No fields to update"), items)
    else
      let updated := items.map (fun m =>
        if m.id == item_id then applyItemPatch data m else m)
      match updated.find? (fun m => m.id == item_id) with
      | some m => (.ok m, updated)
      | none => (.error (.internalError "Database error"), updated)

/-- The allowed upload extensions (`ALLOWED_EXTENSIONS` in `uploads/service.py`). -/
def ALLOWED_EXTENSIONS : List String := ["jpg", "jpeg", "png", "gif", "webp"]

/-- The maximal upload size in bytes (`MAX_FILE_SIZE = 5 * 1024 * 1024`). -/
def MAX_FILE_SIZE : ℕ := 5 * 1024 * 1024

/-- ASCII lowercasing of one character (Python `str.lower` restricted to the
ASCII range the allowed extensions live in). -/
def lowerChar (c : Char) : Char :=
  if 'A' ≤ c ∧ c ≤ 'Z' then Char.ofNat (c.toNat + 32) else c

/-- Splitting a character list at every dot, as Python `str.split(".")`:
every maximal (possibly empty) dot-free run becomes one segment. -/
def splitDotsAux : List Char → List Char → List (List Char)
  | [], acc => [acc.reverse]
  | c :: rest, acc =>
    if c = '.' then acc.reverse :: splitDotsAux rest []
    else splitDotsAux rest (c :: acc)

/-- The extension computation of `validate_file`: last dot-separated segment
of the filename, lowercased (`filename.split(".")[-1].lower()`). -/
def fileExtension (filename : String) : String :=
  String.mk (((splitDotsAux filename.data []).getLastD []).map lowerChar)

/-- Embeds `validate_file` (`uploads/service.py`): empty filename is 400, an
extension outside `ALLOWED_EXTENSIONS` is 400, otherwise the extension is
returned. Detail strings are ASCII renderings of the French originals. -/
def validate_file (filename : String) : Except HttpError String :=
  if filename = "" then
    .error (.badRequest "Le nom du fichier est requis")
  else
    let extension := fileExtension filename
    if !(ALLOWED_EXTENSIONS.contains extension) then
      .error (.badRequest "Type de fichier non autorise")
    else
      .ok extension

/-- A storage upload that was actually issued: the path components of
`f"{folder}/{user_id}/{uuid4()}.{ext}"`. An `Except.ok` result of the upload
functions below carries this record; every `Except.error` result is produced
before the storage call in the source. -/
structure StorageUpload where
  folder : String
  user_id : String
  random_id : String
  extension : String
  deriving DecidableEq, Repr

/-- Embeds `upload_file_to_storage` (`uploads/service.py`): validate the
filename, read the content, reject bytes above `MAX_FILE_SIZE` with 400, then
upload and return the public URL. `random_id` stands for the generated
`uuid4()`; the returned record witnesses the storage call. -/
def upload_file_to_storage (filename : String) (contentLen : ℕ)
    (folder user_id random_id : String) : Except HttpError StorageUpload :=
  match validate_file filename with
  | .error e => .error e
  | .ok extension =>
    if contentLen > MAX_FILE_SIZE then
      .error (.badRequest "Fichier trop volumineux. Taille maximale : 5MB")
    else
      .ok { folder := folder, user_id := user_id, random_id := random_id,
            extension := extension }

/-- Embeds `upload_menu_image_with_signed_url` (`uploads/service.py`): same
validation as `upload_file_to_storage` with the folder fixed to
"menu-images"; the signed-URL/public-URL choice after the upload does not
affect validation and is represented by the returned upload record alone. -/
def upload_menu_image_with_signed_url (filename : String) (contentLen : ℕ)
    (user_id random_id : String) : Except HttpError StorageUpload :=
  match validate_file filename with
  | .error e => .error e
  | .ok extension =>
    if contentLen > MAX_FILE_SIZE then
      .error (.badRequest "Fichier trop volumineux. Taille maximale : 5MB")
    else
      .ok { folder := "menu-images", user_id := user_id, random_id := random_id,
            extension := extension }

/-- A side selection inside an order line (`OrderSideCreate` in
`orders/schemas.py`): the side id and the client-declared extra price. -/
structure OrderSideCreate where
  menu_item_side_id : String
  extra_price : ℚ
  deriving DecidableEq, Repr

/-- An order line (`OrderItemCreate`): the menu item id, a positive quantity,
the client-declared unit price and the selected sides. -/
structure OrderItemCreate where
  menu_item_id : String
  quantity : ℕ
  price : ℚ
  sides : List OrderSideCreate
  deriving DecidableEq, Repr

/-- A public order submission (`OrderCreate`). -/
structure OrderCreate where
  restaurant_id : String
  customer_name : String
  customer_phone : String
  delivery_address : String
  delivery_note : Option String
  items : List OrderItemCreate
  deriving DecidableEq, Repr

/-- Row inserted into `order_items` during order creation. -/
structure OrderItemRow where
  id : String
  order_id : String
  menu_item_id : String
  quantity : ℕ
  price : ℚ
  total_price : ℚ
  deriving DecidableEq, Repr

/-- Row inserted into `order_item_sides` during order creation. -/
structure OrderItemSideRow where
  id : String
  order_item_id : String
  menu_item_side_id : String
  extra_price : ℚ
  deriving DecidableEq, Repr

/-- A side entry of the creation response: the inserted row decorated with the
denormalized `side_name`. -/
structure SideResp where
  row : OrderItemSideRow
  side_name : Option String
  deriving DecidableEq, Repr

/-- An item entry of the creation response: the inserted row decorated with
`item_name` and the side entries that were actually inserted. -/
structure ItemResp where
  row : OrderItemRow
  item_name : Option String
  sides : List SideResp
  deriving DecidableEq, Repr

/-- The assembled `create_order` response (`final_order` plus its items). -/
structure OrderResponse where
  id : String
  restaurant_id : String
  customer_name : String
  customer_phone : String
  delivery_address : String
  delivery_note : Option String
  total_amount : ℚ
  status : String
  items : List ItemResp
  deriving DecidableEq, Repr

/-- The order row inserted at step 4 of `create_order`, before totals are
known: zero total, status "pending". -/
structure InsertedOrder where
  id : String
  restaurant_id : String
  total_amount : ℚ
  status : String
  deriving DecidableEq, Repr

/-- Catalog state read by `create_order`. -/
structure Db where
  restaurants : List Restaurant
  menu_items : List MenuItem
  menu_item_sides : List MenuItemSide
  deriving Repr

/-- Store-side behaviour of the inserts performed by `create_order`: whether
each insert reports data back, and which row ids the store generates.
Indices are the position of the line in the submission and of the side within
its line. -/
structure Eff where
  orderInsertOk : Bool
  orderId : String
  itemInsertOk : ℕ → Bool
  itemId : ℕ → String
  sideInsertOk : ℕ → ℕ → Bool
  sideId : ℕ → ℕ → String
  updateOk : Bool

/-- Everything observable about one `create_order` call: the HTTP result and
the rows the call wrote to the store (writes performed before a failure
persist, as the source runs without a cross-step transaction). -/
structure CreateResult where
  result : Except HttpError OrderResponse
  orderRow : Option InsertedOrder
  writtenItems : List OrderItemRow
  writtenSides : List OrderItemSideRow
  writtenTotal : Option ℚ

/-- A `CreateResult` for a call that failed before writing anything. -/
def failedBeforeWrites (e : HttpError) : CreateResult :=
  { result := .error e, orderRow := none, writtenItems := [], writtenSides := [],
    writtenTotal := none }

/-- The side-insert loop inside one line of step 5: each insert whose response
carries no data is skipped silently (no row recorded, no response entry, no
error), mirroring `if side_resp.data:` with no else branch. -/
def insertSidesFrom (eff : Eff) (i : ℕ) (order_item_id : String)
    (side_names : String → Option String) :
    ℕ → List OrderSideCreate → List OrderItemSideRow × List SideResp
  | _, [] => ([], [])
  | j, s :: rest =>
    let out := insertSidesFrom eff i order_item_id side_names (j + 1) rest
    if eff.sideInsertOk i j then
      let row : OrderItemSideRow :=
        { id := eff.sideId i j, order_item_id := order_item_id,
          menu_item_side_id := s.menu_item_side_id, extra_price := s.extra_price }
      (row :: out.1, { row := row, side_name := side_names s.menu_item_side_id } :: out.2)
    else
      out

/-- Outcome of the item-insert loop of step 5: the rows written so far and
either the accumulated total with the response entries, or the error that
aborted the loop. -/
structure LoopOut where
  writtenItems : List OrderItemRow
  writtenSides : List OrderItemSideRow
  outcome : Except HttpError (ℚ × List ItemResp)

/-- The item-insert loop of step 5 of `create_order`: per line, the line total
`(price + sum of side extra prices) * quantity` is accumulated (in `Decimal`
in the source, exactly), the `order_items` row is inserted with price and
line-total snapshots taken from the submission, then the line's sides are
inserted. An item insert reporting no data aborts with 400, keeping the rows
already written. -/
def insertItemsFrom (eff : Eff) (order_id : String)
    (item_names side_names : String → Option String) :
    ℕ → List OrderItemCreate → LoopOut
  | _, [] => { writtenItems := [], writtenSides := [], outcome := .ok (0, []) }
  | i, line :: rest =>
    let item_sides_total : ℚ := (line.sides.map (fun s => s.extra_price)).sum
    let item_total : ℚ := (line.price + item_sides_total) * (line.quantity : ℚ)
    if eff.itemInsertOk i then
      let row : OrderItemRow :=
        { id := eff.itemId i, order_id := order_id, menu_item_id := line.menu_item_id,
          quantity := line.quantity, price := line.price, total_price := item_total }
      let sidesOut := insertSidesFrom eff i row.id side_names 0 line.sides
      let restOut := insertItemsFrom eff order_id item_names side_names (i + 1) rest
      { writtenItems := row :: restOut.writtenItems,
        writtenSides := sidesOut.1 ++ restOut.writtenSides,
        outcome :=
          match restOut.outcome with
          | .ok (t, resps) =>
            .ok (item_total + t,
              { row := row, item_name := item_names line.menu_item_id,
                sides := sidesOut.2 } :: resps)
          | .error e => .error e }
    else
      { writtenItems := [], writtenSides := [],
        outcome := .error (.badRequest "Failed to create order item") }

/-- Step 3 of `create_order`: when any side is referenced, resolve all
referenced side ids at once, require the resolved count to equal the number
of references, and require each reference to point at a side of its own line's
menu item; on success the side-name lookup is returned. -/
def checkSides (db : Db) (all_sides : List (String × String)) :
    Except HttpError (String → Option String) :=
  if all_sides.isEmpty then
    .ok (fun _ => none)
  else
    let side_ids := all_sides.map (fun p => p.1)
    let rows := db.menu_item_sides.filter (fun s => side_ids.contains s.id)
    if rows.isEmpty || rows.length != side_ids.length then
      .error (.badRequest "One or more sides not found")
    else
      match all_sides.find?
          (fun p => ((rows.find? (fun s => s.id == p.1)).map (fun s => s.menu_item_id))
            != some p.2) with
      | some p =>
        .error (.badRequest ("Side " ++ p.1 ++ " does not belong to menu item " ++ p.2))
      | none =>
        .ok (fun i => (rows.find? (fun s => s.id == i)).map (fun s => s.name))

/-- The menu-item rows resolved by step 2 of `create_order`: the `in_` query
returns each table row whose id occurs among the referenced ids, once. -/
def resolvedMenuItems (db : Db) (data : OrderCreate) : List MenuItem :=
  db.menu_items.filter
    (fun m => (data.items.map (fun it => it.menu_item_id)).contains m.id)

/-- Step 2 of `create_order` (menu-item validation): reject when the resolved
rows are empty or their count differs from the number of references counted
with multiplicity (`len(menu_item_ids)` in the source is the raw per-line
list), and when a resolved item belongs to another restaurant; on success the
item-name lookup is returned. -/
def validateMenuItems (db : Db) (data : OrderCreate) :
    Except HttpError (String → Option String) :=
  if (resolvedMenuItems db data).isEmpty
      || (resolvedMenuItems db data).length
          != (data.items.map (fun it => it.menu_item_id)).length then
    .error (.badRequest "One or more menu items not found")
  else
    match (resolvedMenuItems db data).find? (fun m => m.restaurant_id != data.restaurant_id) with
    | some bad =>
      .error (.badRequest ("Menu item " ++ bad.id ++ " does not belong to this restaurant"))
    | none =>
      .ok (fun i => ((resolvedMenuItems db data).find? (fun m => m.id == i)).map (fun m => m.name))

/-- Steps 1-3 of `create_order` (restaurant existence, menu-item validation,
side validation); on success the two denormalized name lookups are returned. -/
def create_order_validate (db : Db) (data : OrderCreate) :
    Except HttpError ((String → Option String) × (String → Option String)) :=
  match db.restaurants.find? (fun r => r.id == data.restaurant_id) with
  | none => .error (.notFound "Restaurant not found")
  | some _ =>
    match validateMenuItems db data with
    | .error e => .error e
    | .ok item_names =>
      match checkSides db
          (data.items.flatMap
            (fun it => it.sides.map (fun s => (s.menu_item_side_id, it.menu_item_id)))) with
      | .error e => .error e
      | .ok side_names => .ok (item_names, side_names)

/-- The order row written at step 4, before the total is known. -/
def pendingOrderRow (eff : Eff) (data : OrderCreate) : InsertedOrder :=
  { id := eff.orderId, restaurant_id := data.restaurant_id,
    total_amount := 0, status := "pending" }

/-- The response assembled at step 6 from the updated order row and the
response entries of the line loop. -/
def assembleResponse (eff : Eff) (data : OrderCreate) (total : ℚ)
    (resps : List ItemResp) : OrderResponse :=
  { id := eff.orderId, restaurant_id := data.restaurant_id,
    customer_name := data.customer_name, customer_phone := data.customer_phone,
    delivery_address := data.delivery_address, delivery_note := data.delivery_note,
    total_amount := total, status := "pending", items := resps }

/-- Steps 4-6 of `create_order`: the order insert, the line loop and the
total update, with the name lookups produced by validation. -/
def create_order_writes (eff : Eff) (data : OrderCreate)
    (item_names side_names : String → Option String) : CreateResult :=
  if !eff.orderInsertOk then
    failedBeforeWrites (.badRequest "Failed to create order")
  else
    match (insertItemsFrom eff eff.orderId item_names side_names 0 data.items).outcome with
    | .error e =>
      { result := .error e, orderRow := some (pendingOrderRow eff data),
        writtenItems := (insertItemsFrom eff eff.orderId item_names side_names 0 data.items).writtenItems,
        writtenSides := (insertItemsFrom eff eff.orderId item_names side_names 0 data.items).writtenSides,
        writtenTotal := none }
    | .ok (total, resps) =>
      if eff.updateOk then
        { result := .ok (assembleResponse eff data total resps),
          orderRow := some (pendingOrderRow eff data),
          writtenItems := (insertItemsFrom eff eff.orderId item_names side_names 0 data.items).writtenItems,
          writtenSides := (insertItemsFrom eff eff.orderId item_names side_names 0 data.items).writtenSides,
          writtenTotal := some total }
      else
        { result := .error (.badRequest "Failed to update order total"),
          orderRow := some (pendingOrderRow eff data),
          writtenItems := (insertItemsFrom eff eff.orderId item_names side_names 0 data.items).writtenItems,
          writtenSides := (insertItemsFrom eff eff.orderId item_names side_names 0 data.items).writtenSides,
          writtenTotal := none }

/-- Embeds `create_order` (`orders/service.py`): validation (steps 1-3), then
the write phase (steps 4-6). -/
def create_order (db : Db) (eff : Eff) (data : OrderCreate) : CreateResult :=
  match create_order_validate db data with
  | .error e => failedBeforeWrites e
  | .ok (item_names, side_names) =>
    create_order_writes eff data item_names side_names

/-- A store behaviour where every insert reports its data back. -/
def effAllOk : Eff :=
  { orderInsertOk := true, orderId := "o1",
    itemInsertOk := fun _ => true, itemId := fun _ => "oi1",
    sideInsertOk := fun _ _ => true, sideId := fun _ _ => "os1",
    updateOk := true }

/-- Catalog with one restaurant, one menu item of that restaurant and one
side of that item (the spec's end-to-end scenario). -/
def dbC1 : Db :=
  { restaurants := [{ id := "r1", owner_id := "u1" }],
    menu_items := [{ id := "m1", restaurant_id := "r1", category_id := "c1",
                     name := "Poulet braise", description := none, base_price := 3500,
                     image_url := none, is_available := true, position := 1 }],
    menu_item_sides := [{ id := "s1", menu_item_id := "m1", name := "Frites" }] }

/-- Submission with one line: item m1, quantity 2, price 3500, one side of
extra price 500. -/
def dataC1 : OrderCreate :=
  { restaurant_id := "r1", customer_name := "Patrick", customer_phone := "+23769900000",
    delivery_address := "Douala, Akwa", delivery_note := none,
    items := [{ menu_item_id := "m1", quantity := 2, price := 3500,
                sides := [{ menu_item_side_id := "s1", extra_price := 500 }] }] }

/-- The price-independent part of an order line: which item, how many, which
sides. -/
def lineKey (it : OrderItemCreate) : String × ℕ × List String :=
  (it.menu_item_id, it.quantity, it.sides.map (fun s => s.menu_item_side_id))

/-- The price-independent part of a submission: the catalog references and
quantities, with the client-declared `price` and `extra_price` fields erased. -/
def submissionKey (d : OrderCreate) : String × String × String × String ×
    Option String × List (String × ℕ × List String) :=
  (d.restaurant_id, d.customer_name, d.customer_phone, d.delivery_address,
    d.delivery_note, d.items.map lineKey)

/-- Catalog for the price-trust experiment: one restaurant, one item with
catalog base price 3500. -/
def dbC2 : Db :=
  { restaurants := [{ id := "r1", owner_id := "u1" }],
    menu_items := [{ id := "m1", restaurant_id := "r1", category_id := "c1",
                     name := "Poulet braise", description := none, base_price := 3500,
                     image_url := none, is_available := true, position := 1 }],
    menu_item_sides := [] }

/-- Submission declaring price 100 for item m1. -/
def subC2A : OrderCreate :=
  { restaurant_id := "r1", customer_name := "Alice", customer_phone := "+23700000001",
    delivery_address := "Douala, Bonapriso", delivery_note := none,
    items := [{ menu_item_id := "m1", quantity := 1, price := 100, sides := [] }] }

/-- The same submission except that the client-declared price is 0. -/
def subC2B : OrderCreate :=
  { subC2A with items := [{ menu_item_id := "m1", quantity := 1, price := 0, sides := [] }] }

/-- C2 (demonstration of the code bug). Two submissions identical in every
catalog reference and quantity, differing only in the client-declared price,
are both accepted against the same catalog, yet the persisted price snapshot
and the written `total_amount` follow the client-declared price (100 vs 0):
the stored prices and derived total do depend on client-supplied price values,
and the catalog base price (3500) is never consulted. -/
theorem create_order_trusts_client_prices :
    submissionKey subC2A = submissionKey subC2B ∧
    (create_order dbC2 effAllOk subC2A).writtenTotal = some 100 ∧
    (create_order dbC2 effAllOk subC2B).writtenTotal = some 0 ∧
    (create_order dbC2 effAllOk subC2A).writtenItems.map (fun r => r.price) = [100] ∧
    (create_order dbC2 effAllOk subC2B).writtenItems.map (fun r => r.price) = [0] := by
  refine ⟨rfl, ?_, ?_, ?_, ?_⟩ <;>
    norm_num [create_order, create_order_writes, create_order_validate, validateMenuItems, checkSides,
      insertItemsFrom, insertSidesFrom, resolvedMenuItems, failedBeforeWrites,
      effAllOk, dbC2, subC2A, subC2B, pendingOrderRow, assembleResponse]

/-- Modelled from the claim's wording, for comparison with the source's
`validateMenuItems`: every distinct referenced menu item id resolves to an
item of the submitted restaurant, and the count of resolved items equals the
count of distinct requested ids. -/
def specMenuItemCheck (db : Db) (data : OrderCreate) : Bool :=
  let distinct := (data.items.map (fun it => it.menu_item_id)).eraseDups
  ((db.menu_items.filter (fun m => distinct.contains m.id)).length == distinct.length)
    && distinct.all (fun i =>
        match db.menu_items.find? (fun m => m.id == i) with
        | some m => m.restaurant_id == data.restaurant_id
        | none => false)

/-- Submission with two lines referencing the same (existing, owned) menu
item m1. -/
def subC5 : OrderCreate :=
  { restaurant_id := "r1", customer_name := "Bob", customer_phone := "+23700000002",
    delivery_address := "Douala, Bali", delivery_note := none,
    items := [{ menu_item_id := "m1", quantity := 1, price := 10, sides := [] },
              { menu_item_id := "m1", quantity := 2, price := 10, sides := [] }] }

/-- Counterexample for C5: a submission whose two lines reference the same
existing menu item of the submitted restaurant satisfies the claim's check
(resolved count = distinct count, every distinct id exists and belongs), yet
`create_order` rejects it with 400 "One or more menu items not found",
because the source compares the resolved count against the raw per-line
count. -/
theorem create_order_menu_item_validation_cex :
    specMenuItemCheck dbC2 subC5 = true ∧
    (create_order dbC2 effAllOk subC5).result =
      .error (.badRequest "One or more menu items not found") :=
  ⟨rfl, rfl⟩

/-- C5 amended. Step 2 of `create_order` accepts exactly when the resolved
menu items are non-empty, their count equals the number of order lines (the
requested ids counted with multiplicity, so duplicated ids across lines are
rejected), and every resolved item belongs to the submitted restaurant; any
step-2 failure is a 400 and, when the restaurant exists, `create_order`
returns it having written nothing (no order row, no item rows, no side rows,
no total). -/
theorem create_order_menu_item_validation (db : Db) (eff : Eff) (data : OrderCreate) :
    ((validateMenuItems db data).isOk = true ↔
      ((resolvedMenuItems db data).isEmpty = false
        ∧ (resolvedMenuItems db data).length = data.items.length
        ∧ ∀ m ∈ resolvedMenuItems db data, m.restaurant_id = data.restaurant_id))
    ∧ (∀ e, validateMenuItems db data = .error e →
        (∃ d, e = .badRequest d) ∧
        ((db.restaurants.find? (fun r => r.id == data.restaurant_id)).isSome = true →
          create_order db eff data = failedBeforeWrites e)) := by
  constructor
  · unfold validateMenuItems
    split
    · rename_i hcond
      simp only [List.length_map] at hcond
      constructor
      · intro habs; simp [Except.isOk, Except.toBool] at habs
      · rintro ⟨h1, h2, h3⟩
        exfalso
        simp only [Bool.or_eq_true, bne_iff_ne, ne_eq] at hcond
        rcases hcond with hc | hc
        · rw [h1] at hc; cases hc
        · exact hc h2
    · rename_i hcond
      split
      · rename_i bad hfind
        constructor
        · intro habs; simp [Except.isOk, Except.toBool] at habs
        · rintro ⟨h1, h2, h3⟩
          exfalso
          have hmem := List.mem_of_find?_eq_some hfind
          have hp := List.find?_some hfind
          simp only [bne_iff_ne, ne_eq, decide_eq_true_eq] at hp
          exact hp (h3 bad hmem)
      · rename_i hfind
        simp only [Bool.or_eq_true, not_or, List.length_map, bne_iff_ne, ne_eq] at hcond
        constructor
        · intro _
          refine ⟨?_, ?_, ?_⟩
          · exact Bool.not_eq_true _ ▸ (by simpa using hcond.1)
          · simpa using hcond.2
          · intro m hm
            have hmf := List.find?_eq_none.mp hfind m hm
            simpa using hmf
        · intro _
          simp [Except.isOk, Except.toBool]
  · intro e hv
    constructor
    · unfold validateMenuItems at hv
      split at hv
      · cases hv; exact ⟨_, rfl⟩
      · split at hv
        · cases hv; exact ⟨_, rfl⟩
        · cases hv
    · intro hr
      obtain ⟨r, hr'⟩ := Option.isSome_iff_exists.mp hr
      unfold create_order create_order_validate
      simp [hr', hv]

/-- Witness for C5: on the duplicate-line submission the rejection is a 400
and nothing is written. -/
theorem create_order_menu_item_validation_witness :
    (∃ d, (HttpError.badRequest "One or more menu items not found") = .badRequest d) ∧
    create_order dbC2 effAllOk subC5 =
      failedBeforeWrites (.badRequest "One or more menu items not found") := by
  have h := (create_order_menu_item_validation dbC2 effAllOk subC5).2
    (.badRequest "One or more menu items not found") (by rfl)
  exact ⟨h.1, h.2 (by rfl)⟩

/-- Total extra price of the sides of one line whose `order_item_sides`
insert returned no data (and which the loop therefore skipped silently). -/
def skippedSidesFrom (eff : Eff) (i : ℕ) : ℕ → List OrderSideCreate → ℚ
  | _, [] => 0
  | j, s :: rest =>
    (if eff.sideInsertOk i j then 0 else s.extra_price) + skippedSidesFrom eff i (j + 1) rest

/-- Total amount contributed to the order total by skipped side inserts:
per line, the skipped extra prices times the line quantity. -/
def skippedFrom (eff : Eff) : ℕ → List OrderItemCreate → ℚ
  | _, [] => 0
  | i, line :: rest =>
    skippedSidesFrom eff i 0 line.sides * (line.quantity : ℚ) + skippedFrom eff (i + 1) rest

/-- The value of a response line recomputed from the persisted rows it
mirrors: `(price snapshot + Σ persisted side extras) * quantity`. -/
def respLineVal (it : ItemResp) : ℚ :=
  (it.row.price + (it.sides.map (fun s => s.row.extra_price)).sum) * (it.row.quantity : ℚ)

/-- The order total recomputed from the persisted item and side rows of the
response. -/
def respTotal (resps : List ItemResp) : ℚ :=
  (resps.map respLineVal).sum

/-- The response entries of the side loop are exactly the rows it inserted. -/
theorem insertSidesFrom_resp_rows (eff : Eff) (i : ℕ) (oid : String)
    (snames : String → Option String) :
    ∀ (sides : List OrderSideCreate) (j : ℕ),
      (insertSidesFrom eff i oid snames j sides).2.map (fun s => s.row) =
        (insertSidesFrom eff i oid snames j sides).1 := by
  intro sides
  induction sides with
  | nil => intro j; simp [insertSidesFrom]
  | cons s rest ih =>
    intro j
    simp only [insertSidesFrom]
    by_cases hc : eff.sideInsertOk i j
    · simp [hc, ih (j + 1)]
    · simp [hc, ih (j + 1)]

/-- Inserted side extras plus skipped side extras give the declared side
extras of the line. -/
theorem insertSidesFrom_extra_sum (eff : Eff) (i : ℕ) (oid : String)
    (snames : String → Option String) :
    ∀ (sides : List OrderSideCreate) (j : ℕ),
      ((insertSidesFrom eff i oid snames j sides).1.map (fun r => r.extra_price)).sum
          + skippedSidesFrom eff i j sides
        = (sides.map (fun s => s.extra_price)).sum := by
  intro sides
  induction sides with
  | nil => intro j; simp [insertSidesFrom, skippedSidesFrom]
  | cons s rest ih =>
    intro j
    cases hc : eff.sideInsertOk i j with
    | true =>
      simp only [insertSidesFrom, skippedSidesFrom, hc, if_true, List.map_cons, List.sum_cons]
      linarith [ih (j + 1), ih (1 + j)]
    | false =>
      simp only [insertSidesFrom, skippedSidesFrom, hc, Bool.false_eq_true, if_false,
        List.map_cons, List.sum_cons]
      linarith [ih (j + 1), ih (1 + j)]

/-- When the item loop completes, its accumulated total is the recomputed
total of the response plus the skipped-side amount, and the side rows it
wrote are exactly those appearing in the response. -/
theorem insertItemsFrom_ok_resp (eff : Eff) (oid : String)
    (inames snames : String → Option String) :
    ∀ (lines : List OrderItemCreate) (i : ℕ) (t : ℚ) (resps : List ItemResp),
      (insertItemsFrom eff oid inames snames i lines).outcome = .ok (t, resps) →
      t = respTotal resps + skippedFrom eff i lines ∧
      (insertItemsFrom eff oid inames snames i lines).writtenSides =
        resps.flatMap (fun it => it.sides.map (fun s => s.row)) := by
  intro lines
  induction lines with
  | nil =>
    intro i t resps h
    simp only [insertItemsFrom] at h
    cases h
    simp [insertItemsFrom, respTotal, skippedFrom]
  | cons line rest ih =>
    intro i t resps h
    simp only [insertItemsFrom] at h
    by_cases hc : eff.itemInsertOk i
    · simp only [hc, if_true] at h ⊢
      cases hrest : (insertItemsFrom eff oid inames snames (i + 1) rest).outcome with
      | error e => rw [hrest] at h; cases h
      | ok pr =>
        obtain ⟨t', resps'⟩ := pr
        rw [hrest] at h
        cases h
        obtain ⟨ht', hs'⟩ := ih (i + 1) t' resps' hrest
        constructor
        · have hside := insertSidesFrom_extra_sum eff i (eff.itemId i) snames line.sides 0
          simp only [respTotal, List.map_cons, List.sum_cons, respLineVal] at *
          rw [ht']
          have hrows := insertSidesFrom_resp_rows eff i (eff.itemId i) snames line.sides 0
          have : ((insertSidesFrom eff i (eff.itemId i) snames 0 line.sides).2.map
              (fun s => s.row.extra_price)).sum
              = ((insertSidesFrom eff i (eff.itemId i) snames 0 line.sides).1.map
                (fun r => r.extra_price)).sum := by
            rw [← hrows, List.map_map]
            rfl
          simp only [skippedFrom, this]
          rw [← hside]
          ring
        · have hrows := insertSidesFrom_resp_rows eff i (eff.itemId i) snames line.sides 0
          simp [insertItemsFrom, hc, hs', List.flatMap_cons, hrows]
    · simp only [hc, if_false] at h
      cases h

/-- C10. When `create_order` succeeds, the total it returns and writes equals
the total recomputed from the persisted item and side rows plus the amount
contributed by side inserts that returned no data and were skipped silently;
the persisted side rows are exactly those present in the response, so a
skipped side is absent from both while its extra price stays in the stored
total. -/
theorem create_order_skipped_side_inflates_total (db : Db) (eff : Eff)
    (data : OrderCreate) (resp : OrderResponse)
    (h : (create_order db eff data).result = .ok resp) :
    resp.total_amount = respTotal resp.items + skippedFrom eff 0 data.items ∧
    (create_order db eff data).writtenSides =
      resp.items.flatMap (fun it => it.sides.map (fun s => s.row)) ∧
    (create_order db eff data).writtenTotal =
      some (respTotal resp.items + skippedFrom eff 0 data.items) := by
  revert h
  unfold create_order
  split
  · intro h; cases h
  · rename_i item_names side_names heq
    clear heq
    unfold create_order_writes
    split
    · intro h; cases h
    · split
      · intro h; cases h
      · rename_i total resps heq
        split
        · intro h
          cases h
          obtain ⟨ht, hs⟩ := insertItemsFrom_ok_resp eff eff.orderId item_names side_names
            data.items 0 total resps heq
          exact ⟨ht, hs, by simp [assembleResponse, ht]⟩
        · intro h; cases h

/-- Store behaviour in which every `order_item_sides` insert reports no data
back (and is therefore skipped by the loop). -/
def effSkipSides : Eff :=
  { effAllOk with sideInsertOk := fun _ _ => false }

/-- The response `create_order dbC1 effSkipSides dataC1` produces: the side is
missing from the response while the totals still include its extra price. -/
def respC10 : OrderResponse :=
  { id := "o1", restaurant_id := "r1", customer_name := "Patrick",
    customer_phone := "+23769900000", delivery_address := "Douala, Akwa",
    delivery_note := none, total_amount := 8000, status := "pending",
    items := [{ row := { id := "oi1", order_id := "o1", menu_item_id := "m1",
                         quantity := 2, price := 3500, total_price := 8000 },
                item_name := some "Poulet braise", sides := [] }] }

/-- Witness for C10: with the side insert returning no data, the order is
still created with stored total 8000 while the rows persisted for it only
account for 7000 (the skipped side contributes 500 * 2). -/
theorem create_order_skipped_side_inflates_total_witness :
    respC10.total_amount = respTotal respC10.items + skippedFrom effSkipSides 0 dataC1.items ∧
    (create_order dbC1 effSkipSides dataC1).writtenSides =
      respC10.items.flatMap (fun it => it.sides.map (fun s => s.row)) ∧
    (create_order dbC1 effSkipSides dataC1).writtenTotal =
      some (respTotal respC10.items + skippedFrom effSkipSides 0 dataC1.items) :=
  create_order_skipped_side_inflates_total dbC1 effSkipSides dataC1 respC10 (by
    norm_num [create_order, create_order_writes, create_order_validate, validateMenuItems,
      checkSides, insertItemsFrom, insertSidesFrom, resolvedMenuItems, failedBeforeWrites,
      effSkipSides, effAllOk, dbC1, dataC1, respC10, pendingOrderRow, assembleResponse])

/-- Modelled from the claim's wording (for comparison with the source's
check): the transitions the specification declares valid — the linear chain
pending → confirmed → preparing → ready → delivering → completed plus
canceled from any non-terminal state. -/
def specAllowedTransition (src dst : String) : Bool :=
  (src == "pending" && dst == "confirmed")
    || (src == "confirmed" && dst == "preparing")
    || (src == "preparing" && dst == "ready")
    || (src == "ready" && dst == "delivering")
    || (src == "delivering" && dst == "completed")
    || (dst == "canceled" && !(src == "completed") && !(src == "canceled"))

/-- Restaurant table of the status-transition experiment. -/
def rsC3 : List Restaurant := [{ id := "r1", owner_id := "u1" }]

/-- Orders table of the status-transition experiment: one completed order. -/
def osC3 : List OrderRow := [{ id := "ord1", restaurant_id := "r1", status := "completed" }]

/-- Counterexample for C3: `update_order_status` accepts the request moving a
completed order back to pending — a transition on no edge of the claimed
state machine — and writes it, because the source only checks membership of
the target status in `VALID_STATUSES`. -/
theorem update_order_status_edges_cex :
    specAllowedTransition "completed" "pending" = false ∧
    update_order_status rsC3 osC3 "u1" "ord1" "pending"
      = (.ok { id := "ord1", restaurant_id := "r1", status := "pending" },
         [{ id := "ord1", restaurant_id := "r1", status := "pending" }]) :=
  ⟨rfl, rfl⟩

/-- Replacing the status of the matching order preserves which row `find?`
locates. -/
theorem find?_map_set_status (oid s : String) :
    ∀ (os : List OrderRow) (o : OrderRow),
      os.find? (fun x => x.id == oid) = some o →
      (os.map (fun x => if x.id == oid then { x with status := s } else x)).find?
          (fun x => x.id == oid) = some { o with status := s } := by
  intro os
  induction os with
  | nil => intro o h; cases h
  | cons a rest ih =>
    intro o h
    cases hpa : (a.id == oid) with
    | true =>
      simp only [List.find?, hpa] at h
      cases h
      simp [List.find?, hpa]
    | false =>
      simp only [List.find?, hpa] at h
      simpa [List.find?, hpa] using ih o h

/-- C3 amended. `update_order_status` enforces only membership of the target
status in the 7-value set, never a transition edge: for any target status in
the set and any order whose ownership check passes, the update succeeds and
writes the new status onto the stored order whatever its current status is
(so the stored status moves freely between any two of the 7 values). -/
theorem update_order_status_membership_only (rs : List Restaurant) (os : List OrderRow)
    (u oid s : String) (o : OrderRow)
    (hs : VALID_STATUSES.contains s = true)
    (ho : verify_order_ownership rs os u oid = .ok o) :
    update_order_status rs os u oid s
      = (.ok { o with status := s },
         os.map (fun x => if x.id == oid then { x with status := s } else x)) := by
  have hfind : os.find? (fun x => x.id == oid) = some o := by
    unfold verify_order_ownership at ho
    split at ho
    · cases ho
    · rename_i o' hfind'
      split at ho
      · cases ho
      · split at ho
        · cases ho
        · cases ho
          exact hfind'
  unfold update_order_status
  rw [hs]
  simp only [Bool.not_true, Bool.false_eq_true, if_false]
  rw [ho]
  rw [find?_map_set_status oid s os o hfind]

/-- Witness for C3: the amended behaviour at the counterexample input — the
valid-but-off-edge status "pending" is written over "completed". -/
theorem update_order_status_membership_only_witness :
    update_order_status rsC3 osC3 "u1" "ord1" "pending"
      = (.ok { id := "ord1", restaurant_id := "r1", status := "pending" },
         [{ id := "ord1", restaurant_id := "r1", status := "pending" }]) := by
  have h := update_order_status_membership_only rsC3 osC3 "u1" "ord1" "pending"
    { id := "ord1", restaurant_id := "r1", status := "completed" } (by rfl) (by rfl)
  simpa [osC3] using h

/-- C6. A target status outside `VALID_STATUSES` makes `update_order_status`
fail with 400 for every store state and caller — in particular before any
ownership lookup could distinguish existing from absent orders — and the
orders table is returned unchanged: no write is issued. -/
theorem update_order_status_invalid_rejected (rs : List Restaurant) (os : List OrderRow)
    (u oid s : String) (hs : VALID_STATUSES.contains s = false) :
    update_order_status rs os u oid s = (.error (.badRequest invalidStatusDetail), os) := by
  unfold update_order_status
  rw [hs]
  simp

/-- Witness for C6: the status "shipped" is rejected with 400 on an empty
store, which an ownership lookup would have answered with 404 instead. -/
theorem update_order_status_invalid_rejected_witness :
    update_order_status [] [] "u1" "ord1" "shipped"
      = (.error (.badRequest invalidStatusDetail), []) :=
  update_order_status_invalid_rejected [] [] "u1" "ord1" "shipped" (by rfl)

/-- C7. Ownership checks fail closed: `verify_restaurant_ownership` answers
true exactly when no store error occurred and a row with the given id and
owner exists (so any lookup error, missing row or owner mismatch yields
false); and for orders, categories and menu items, an entity found by the
lookup whose restaurant is owned by someone else yields 403 Forbidden, while
an absent entity id yields 404 NotFound. -/
theorem ownership_fail_closed :
    (∀ (rs : List Restaurant) (f : Bool) (u rid : String),
        verify_restaurant_ownership rs f u rid = true ↔
          (f = false ∧ ∃ r ∈ rs, r.id = rid ∧ r.owner_id = u))
    ∧ (∀ (rs : List Restaurant) (os : List OrderRow) (u oid : String)
        (o : OrderRow) (r : Restaurant),
        os.find? (fun x => x.id == oid) = some o →
        rs.find? (fun x => x.id == o.restaurant_id) = some r →
        r.owner_id ≠ u →
        verify_order_ownership rs os u oid
          = .error (.forbidden "You don't have access to this order"))
    ∧ (∀ (rs : List Restaurant) (os : List OrderRow) (u oid : String),
        os.find? (fun x => x.id == oid) = none →
        verify_order_ownership rs os u oid = .error (.notFound "Order not found"))
    ∧ (∀ (rs : List Restaurant) (cs : List MenuCategory) (u cid : String)
        (c : MenuCategory) (r : Restaurant),
        cs.find? (fun x => x.id == cid) = some c →
        rs.find? (fun x => x.id == c.restaurant_id) = some r →
        r.owner_id ≠ u →
        category_ownership_check rs cs u cid
          = .error (.forbidden "You don't have access to this category"))
    ∧ (∀ (rs : List Restaurant) (cs : List MenuCategory) (u cid : String),
        cs.find? (fun x => x.id == cid) = none →
        category_ownership_check rs cs u cid = .error (.notFound "Category not found"))
    ∧ (∀ (rs : List Restaurant) (its : List MenuItem) (u iid : String)
        (m : MenuItem) (r : Restaurant),
        its.find? (fun x => x.id == iid) = some m →
        rs.find? (fun x => x.id == m.restaurant_id) = some r →
        r.owner_id ≠ u →
        item_ownership_check rs its u iid
          = .error (.forbidden "You don't have access to this item"))
    ∧ (∀ (rs : List Restaurant) (its : List MenuItem) (u iid : String),
        its.find? (fun x => x.id == iid) = none →
        item_ownership_check rs its u iid = .error (.notFound "Menu item not found")) := by
  refine ⟨?_, ?_, ?_, ?_, ?_, ?_, ?_⟩
  · intro rs f u rid
    unfold verify_restaurant_ownership
    cases f with
    | true => simp
    | false =>
      simp only [Bool.false_eq_true, if_false, true_and]
      rw [List.find?_isSome]
      constructor
      · rintro ⟨r, hr, hp⟩
        simp only [Bool.and_eq_true, beq_iff_eq] at hp
        exact ⟨r, hr, hp.1, hp.2⟩
      · rintro ⟨r, hr, h1, h2⟩
        exact ⟨r, hr, by simp [h1, h2]⟩
  · intro rs os u oid o r hfo hfr hne
    simp [verify_order_ownership, hfo, hfr, hne]
  · intro rs os u oid hfo
    unfold verify_order_ownership
    rw [hfo]
  · intro rs cs u cid c r hfc hfr hne
    simp [category_ownership_check, hfc, hfr, hne]
  · intro rs cs u cid hfc
    unfold category_ownership_check
    rw [hfc]
  · intro rs its u iid m r hfm hfr hne
    simp [item_ownership_check, hfm, hfr, hne]
  · intro rs its u iid hfm
    unfold item_ownership_check
    rw [hfm]

/-- One menu category row used by the ownership and empty-patch witnesses. -/
def catFix : MenuCategory :=
  { id := "cat1", restaurant_id := "r1", name := "Plats", position := 1, is_active := true }

/-- One menu item row used by the ownership and empty-patch witnesses. -/
def itemFix : MenuItem :=
  { id := "m1", restaurant_id := "r1", category_id := "cat1", name := "Poulet braise",
    description := none, base_price := 3500, image_url := none,
    is_available := true, position := 1 }

/-- Witness for C7: each fail-closed branch at a concrete store state — owner
hit, store error, entity of a foreign restaurant (403), absent entity (404). -/
theorem ownership_fail_closed_witness :
    verify_restaurant_ownership [{ id := "r1", owner_id := "u1" }] false "u1" "r1" = true
    ∧ verify_order_ownership [{ id := "r1", owner_id := "u1" }]
        [{ id := "ord1", restaurant_id := "r1", status := "pending" }] "u2" "ord1"
      = .error (.forbidden "You don't have access to this order")
    ∧ verify_order_ownership [{ id := "r1", owner_id := "u1" }] [] "u1" "ord9"
      = .error (.notFound "Order not found")
    ∧ category_ownership_check [{ id := "r1", owner_id := "u1" }] [catFix] "u2" "cat1"
      = .error (.forbidden "You don't have access to this category")
    ∧ category_ownership_check [{ id := "r1", owner_id := "u1" }] [] "u1" "cat9"
      = .error (.notFound "Category not found")
    ∧ item_ownership_check [{ id := "r1", owner_id := "u1" }] [itemFix] "u2" "m1"
      = .error (.forbidden "You don't have access to this item")
    ∧ item_ownership_check [{ id := "r1", owner_id := "u1" }] [] "u1" "m9"
      = .error (.notFound "Menu item not found") := by
  refine ⟨?_, ?_, ?_, ?_, ?_, ?_, ?_⟩
  · exact (ownership_fail_closed.1 [{ id := "r1", owner_id := "u1" }] false "u1" "r1").mpr
      ⟨rfl, { id := "r1", owner_id := "u1" }, by simp, rfl, rfl⟩
  · exact ownership_fail_closed.2.1 _ _ "u2" "ord1"
      { id := "ord1", restaurant_id := "r1", status := "pending" }
      { id := "r1", owner_id := "u1" } (by rfl) (by rfl) (by decide)
  · exact ownership_fail_closed.2.2.1 _ _ "u1" "ord9" (by rfl)
  · exact ownership_fail_closed.2.2.2.1 _ _ "u2" "cat1" catFix
      { id := "r1", owner_id := "u1" } (by rfl) (by rfl) (by decide)
  · exact ownership_fail_closed.2.2.2.2.1 _ _ "u1" "cat9" (by rfl)
  · exact ownership_fail_closed.2.2.2.2.2.1 _ _ "u2" "m1" itemFix
      { id := "r1", owner_id := "u1" } (by rfl) (by rfl) (by decide)
  · exact ownership_fail_closed.2.2.2.2.2.2 _ _ "u1" "m9" (by rfl)

/-- C8. On an existing catalog entity owned by the caller, a partial-update
request whose fields are all null is rejected by `update_category` and
`update_item` with 400 "No fields to update" and the table is returned
unchanged: no update write is issued, never a silent no-op. -/
theorem update_rejects_empty_patch :
    (∀ (rs : List Restaurant) (cats : List MenuCategory) (u cid : String)
        (d : MenuCategoryUpdate) (c : MenuCategory),
        category_ownership_check rs cats u cid = .ok c →
        d.isEmptyPatch = true →
        update_category rs cats u cid d = (.error (.badRequest "No fields to update"), cats))
    ∧ (∀ (rs : List Restaurant) (its : List MenuItem) (u iid : String)
        (d : MenuItemUpdate) (m : MenuItem),
        item_ownership_check rs its u iid = .ok m →
        d.isEmptyPatch = true →
        update_item rs its u iid d = (.error (.badRequest "No fields to update"), its)) := by
  constructor
  · intro rs cats u cid d c hown hd
    unfold update_category
    rw [hown, hd]
    simp
  · intro rs its u iid d m hown hd
    unfold update_item
    rw [hown, hd]
    simp

/-- Witness for C8: the all-null category patch and the all-null item patch
are rejected on existing, owned entities, leaving the tables as they were. -/
theorem update_rejects_empty_patch_witness :
    update_category [{ id := "r1", owner_id := "u1" }] [catFix] "u1" "cat1"
        { name := none, position := none, is_active := none }
      = (.error (.badRequest "No fields to update"), [catFix])
    ∧ update_item [{ id := "r1", owner_id := "u1" }] [itemFix] "u1" "m1"
        { category_id := none, name := none, description := none, base_price := none,
          image_url := none, is_available := none, position := none }
      = (.error (.badRequest "No fields to update"), [itemFix]) :=
  ⟨update_rejects_empty_patch.1 _ [catFix] "u1" "cat1" _ catFix (by rfl) (by rfl),
   update_rejects_empty_patch.2 _ [itemFix] "u1" "m1" _ itemFix (by rfl) (by rfl)⟩

/-- C9. For both upload entry points: a filename whose extension (last
dot-separated segment, lowercased) is outside {jpg, jpeg, png, gif, webp} is
rejected with 400, and a content size above 5 MiB is rejected with 400
whatever the extension; either rejection happens before the storage upload
(an error result carries no `StorageUpload`). A file passing both checks
proceeds to the storage upload. -/
theorem upload_validation (filename : String) (n : ℕ) (folder u rid : String) :
    ((fileExtension filename ∉ ALLOWED_EXTENSIONS →
        (∃ d, upload_file_to_storage filename n folder u rid = .error (.badRequest d))
        ∧ (∃ d, upload_menu_image_with_signed_url filename n u rid = .error (.badRequest d)))
      ∧ (n > MAX_FILE_SIZE →
        (∃ d, upload_file_to_storage filename n folder u rid = .error (.badRequest d))
        ∧ (∃ d, upload_menu_image_with_signed_url filename n u rid = .error (.badRequest d)))
      ∧ (filename ≠ "" → fileExtension filename ∈ ALLOWED_EXTENSIONS →
          ¬ n > MAX_FILE_SIZE →
          upload_file_to_storage filename n folder u rid
            = .ok { folder := folder, user_id := u, random_id := rid,
                    extension := fileExtension filename }
          ∧ upload_menu_image_with_signed_url filename n u rid
            = .ok { folder := "menu-images", user_id := u, random_id := rid,
                    extension := fileExtension filename })) := by
  refine ⟨?_, ?_, ?_⟩
  · intro hext
    by_cases hf : filename = ""
    · exact ⟨⟨"Le nom du fichier est requis", by
          simp [upload_file_to_storage, validate_file, hf]⟩,
        ⟨"Le nom du fichier est requis", by
          simp [upload_menu_image_with_signed_url, validate_file, hf]⟩⟩
    · exact ⟨⟨"Type de fichier non autorise", by
          simp [upload_file_to_storage, validate_file, hf, hext]⟩,
        ⟨"Type de fichier non autorise", by
          simp [upload_menu_image_with_signed_url, validate_file, hf, hext]⟩⟩
  · intro hn
    by_cases hf : filename = ""
    · exact ⟨⟨"Le nom du fichier est requis", by
          simp [upload_file_to_storage, validate_file, hf]⟩,
        ⟨"Le nom du fichier est requis", by
          simp [upload_menu_image_with_signed_url, validate_file, hf]⟩⟩
    · by_cases hext : fileExtension filename ∈ ALLOWED_EXTENSIONS
      · exact ⟨⟨"Fichier trop volumineux. Taille maximale : 5MB", by
            simp [upload_file_to_storage, validate_file, hf, hext, hn]⟩,
          ⟨"Fichier trop volumineux. Taille maximale : 5MB", by
            simp [upload_menu_image_with_signed_url, validate_file, hf, hext, hn]⟩⟩
      · exact ⟨⟨"Type de fichier non autorise", by
            simp [upload_file_to_storage, validate_file, hf, hext]⟩,
          ⟨"Type de fichier non autorise", by
            simp [upload_menu_image_with_signed_url, validate_file, hf, hext]⟩⟩
  · intro hf hext hn
    constructor
    · simp [upload_file_to_storage, validate_file, hf, hext, hn]
    · simp [upload_menu_image_with_signed_url, validate_file, hf, hext, hn]

/-- Witness for C9: "virus.exe" is rejected whatever its size, a 6 MiB
"photo.jpg" is rejected, and a small "photo.PNG" (uppercase extension)
passes validation and reaches storage. -/
theorem upload_validation_witness :
    ((∃ d, upload_file_to_storage "virus.exe" 10 "logos" "u1" "rnd" = .error (.badRequest d))
      ∧ (∃ d, upload_menu_image_with_signed_url "virus.exe" 10 "u1" "rnd"
          = .error (.badRequest d)))
    ∧ ((∃ d, upload_file_to_storage "photo.jpg" (6 * 1024 * 1024) "logos" "u1" "rnd"
          = .error (.badRequest d))
      ∧ (∃ d, upload_menu_image_with_signed_url "photo.jpg" (6 * 1024 * 1024) "u1" "rnd"
          = .error (.badRequest d)))
    ∧ (upload_file_to_storage "photo.PNG" 1000 "logos" "u1" "rnd"
        = .ok { folder := "logos", user_id := "u1", random_id := "rnd",
                extension := fileExtension "photo.PNG" }
      ∧ upload_menu_image_with_signed_url "photo.PNG" 1000 "u1" "rnd"
        = .ok { folder := "menu-images", user_id := "u1", random_id := "rnd",
                extension := fileExtension "photo.PNG" }) :=
  ⟨(upload_validation "virus.exe" 10 "logos" "u1" "rnd").1 (by decide),
   (upload_validation "photo.jpg" (6 * 1024 * 1024) "logos" "u1" "rnd").2.1 (by decide),
   (upload_validation "photo.PNG" 1000 "logos" "u1" "rnd").2.2 (by decide) (by decide) (by decide)⟩

/-- Lexicographic comparison of character lists, the order the store's
`gte`/`lte` range filters use on the text form of the `id` column. -/
def lexLe : List Char → List Char → Bool
  | [], _ => true
  | _ :: _, [] => false
  | a :: as, b :: bs => if a < b then true else if b < a then false else lexLe as bs

/-- Lowercase hexadecimal digit. -/
def hexl (c : Char) : Bool :=
  (decide ('0' ≤ c) && decide (c ≤ '9')) || (decide ('a' ≤ c) && decide (c ≤ 'f'))

/-- All characters are lowercase hexadecimal digits. -/
def allHexl (l : List Char) : Bool :=
  l.all hexl

/-- The character list consists of hex groups of the given lengths joined by
single dashes. -/
def groupOk : List Char → List ℕ → Bool
  | _, [] => false
  | l, [n] => (l.length == n) && allHexl l
  | l, n :: ns =>
    allHexl (l.take n) && ((l.drop n).headD ' ' == '-') && groupOk ((l.drop n).tail) ns

/-- Canonical textual UUID shape: five dash-separated lowercase hex groups of
lengths 8, 4, 4, 4 and 12. -/
def canonicalUuid (id : List Char) : Bool :=
  groupOk id [8, 4, 4, 4, 12]

/-- Suffix of the lower range bound `f"{code}-0000-0000-0000-000000000000"`. -/
def lowTail : List Char :=
  "-0000-0000-0000-000000000000".data

/-- Suffix of the upper range bound `f"{code}-ffff-ffff-ffff-ffffffffffff"`. -/
def highTail : List Char :=
  "-ffff-ffff-ffff-ffffffffffff".data

/-- The lower bound of the range scan in `get_order_by_code`. -/
def lowBound (code : List Char) : List Char :=
  code ++ lowTail

/-- The upper bound of the range scan in `get_order_by_code`. -/
def highBound (code : List Char) : List Char :=
  code ++ highTail

/-- The range filter applied by `.gte("id", start_uuid).lte("id", end_uuid)`. -/
def inRangeB (code id : List Char) : Bool :=
  lexLe (lowBound code) id && lexLe id (highBound code)

/-- Stripping a common first segment does not change a lexicographic
comparison. -/
theorem lexLe_append_left : ∀ (xs as bs : List Char), lexLe (xs ++ as) (xs ++ bs) = lexLe as bs
  | [], _, _ => rfl
  | x :: xs, as, bs => by
    simp [lexLe, lt_irrefl, lexLe_append_left xs as bs]

/-- A pointwise-smaller list of the same shape is lexicographically smaller
or equal. -/
theorem lexLe_of_forall₂ : ∀ {x y : List Char},
    List.Forall₂ (fun a b => a ≤ b) x y → lexLe x y = true := by
  intro x y h
  induction h with
  | nil => rfl
  | cons hab hrest ih =>
    rename_i a b as bs
    rcases lt_or_eq_of_le hab with hlt | heq
    · simp [lexLe, hlt]
    · subst heq
      simp [lexLe, lt_irrefl, ih]

/-- Pointwise comparisons concatenate. -/
theorem forall₂_le_append {x y u v : List Char}
    (h1 : List.Forall₂ (fun a b => a ≤ b) x y)
    (h2 : List.Forall₂ (fun a b => a ≤ b) u v) :
    List.Forall₂ (fun a b => a ≤ b) (x ++ u) (y ++ v) := by
  induction h1 with
  | nil => exact h2
  | cons hab _ ih => exact List.Forall₂.cons hab ih

/-- A hex digit is at least the character zero. -/
theorem hexl_ge_zero {c : Char} (h : hexl c = true) : '0' ≤ c := by
  simp only [hexl, Bool.or_eq_true, Bool.and_eq_true, decide_eq_true_eq] at h
  rcases h with h | h
  · exact h.1
  · exact le_trans (by decide) h.1

/-- A hex digit is at most the character f. -/
theorem hexl_le_f {c : Char} (h : hexl c = true) : c ≤ 'f' := by
  simp only [hexl, Bool.or_eq_true, Bool.and_eq_true, decide_eq_true_eq] at h
  rcases h with h | h
  · exact le_trans h.2 (by decide)
  · exact h.2

/-- A run of zeros is pointwise below any all-hex list of the same length. -/
theorem forall₂_zero_hex : ∀ {g : List Char}, allHexl g = true →
    List.Forall₂ (fun a b => a ≤ b) (List.replicate g.length '0') g := by
  intro g
  induction g with
  | nil => intro _; exact List.Forall₂.nil
  | cons c rest ih =>
    intro h
    simp only [allHexl, List.all_cons, Bool.and_eq_true] at h
    simp only [List.length_cons, List.replicate_succ]
    exact List.Forall₂.cons (hexl_ge_zero h.1) (ih h.2)

/-- An all-hex list is pointwise below a run of the character f of the same
length. -/
theorem forall₂_hex_f : ∀ {g : List Char}, allHexl g = true →
    List.Forall₂ (fun a b => a ≤ b) g (List.replicate g.length 'f') := by
  intro g
  induction g with
  | nil => intro _; exact List.Forall₂.nil
  | cons c rest ih =>
    intro h
    simp only [allHexl, List.all_cons, Bool.and_eq_true] at h
    simp only [List.length_cons, List.replicate_succ]
    exact List.Forall₂.cons (hexl_le_f h.1) (ih h.2)

/-- After a common segment, a strictly larger character decides the
comparison whatever follows. -/
theorem lexLe_gt_false : ∀ (xs : List Char) (a b : Char) (as bs : List Char), a < b →
    lexLe (xs ++ b :: bs) (xs ++ a :: as) = false
  | [], a, b, as, bs, h => by
    simp [lexLe, h, asymm h]
  | x :: xs, a, b, as, bs, h => by
    simp [lexLe, lt_irrefl, lexLe_gt_false xs a b as bs h]

/-- Two different lists of equal length split at their first difference. -/
theorem ne_first_diff : ∀ (x y : List Char), x.length = y.length → x ≠ y →
    ∃ p a b xs ys, a ≠ b ∧ x = p ++ a :: xs ∧ y = p ++ b :: ys := by
  intro x
  induction x with
  | nil =>
    intro y hl hne
    cases y with
    | nil => exact absurd rfl hne
    | cons b ys => simp at hl
  | cons a xs ih =>
    intro y hl hne
    cases y with
    | nil => simp at hl
    | cons b ys =>
      by_cases hab : a = b
      · subst hab
        have hne' : xs ≠ ys := fun h => hne (by rw [h])
        obtain ⟨p, a', b', xs', ys', hd, hx, hy⟩ := ih ys (by simpa using hl) hne'
        exact ⟨a :: p, a', b', xs', ys', hd, by simp [hx], by simp [hy]⟩
      · exact ⟨[], a, b, xs, ys, hab, rfl, rfl⟩

/-- Splitting off the first group of a dash-joined hex shape. -/
theorem groupOk_cons_decomp {l : List Char} {n m : ℕ} {ns : List ℕ}
    (h : groupOk l (n :: m :: ns) = true) :
    ∃ g rest, l = g ++ '-' :: rest ∧ g.length = n ∧ allHexl g = true
      ∧ groupOk rest (m :: ns) = true := by
  simp only [groupOk, Bool.and_eq_true] at h
  obtain ⟨⟨htake, hhead⟩, hrest⟩ := h
  have hdropne : l.drop n ≠ [] := by
    intro hd
    rw [hd] at hhead
    simp at hhead
  obtain ⟨c, rest, hd⟩ := List.exists_cons_of_ne_nil hdropne
  have hc : c = '-' := by
    rw [hd] at hhead
    simpa using hhead
  subst hc
  have hlt : n < l.length := by
    have hpos : 0 < (l.drop n).length := by rw [hd]; simp
    rw [List.length_drop] at hpos
    omega
  refine ⟨l.take n, rest, ?_, ?_, htake, ?_⟩
  · conv_lhs => rw [← List.take_append_drop n l]
    rw [hd]
  · rw [List.length_take]
    omega
  · rw [hd] at hrest
    simpa using hrest

/-- The last group of a dash-joined hex shape. -/
theorem groupOk_single_decomp {l : List Char} {n : ℕ}
    (h : groupOk l [n] = true) : l.length = n ∧ allHexl l = true := by
  simp only [groupOk, Bool.and_eq_true, beq_iff_eq] at h
  exact h

/-- A canonical UUID splits into its five hex groups. -/
theorem canonicalUuid_decomp {id : List Char} (h : canonicalUuid id = true) :
    ∃ g1 g2 g3 g4 g5,
      id = g1 ++ '-' :: (g2 ++ '-' :: (g3 ++ '-' :: (g4 ++ '-' :: g5)))
      ∧ g1.length = 8 ∧ g2.length = 4 ∧ g3.length = 4 ∧ g4.length = 4 ∧ g5.length = 12
      ∧ allHexl g1 = true ∧ allHexl g2 = true ∧ allHexl g3 = true
      ∧ allHexl g4 = true ∧ allHexl g5 = true := by
  obtain ⟨g1, r1, h1, hl1, hx1, hr1⟩ := groupOk_cons_decomp h
  obtain ⟨g2, r2, h2, hl2, hx2, hr2⟩ := groupOk_cons_decomp hr1
  obtain ⟨g3, r3, h3, hl3, hx3, hr3⟩ := groupOk_cons_decomp hr2
  obtain ⟨g4, r4, h4, hl4, hx4, hr4⟩ := groupOk_cons_decomp hr3
  obtain ⟨hl5, hx5⟩ := groupOk_single_decomp hr4
  refine ⟨g1, g2, g3, g4, r4, ?_, hl1, hl2, hl3, hl4, hl5, hx1, hx2, hx3, hx4, hx5⟩
  rw [h1, h2, h3, h4]

/-- The lower-bound suffix as dash-joined zero runs. -/
theorem lowTail_eq :
    lowTail = '-' :: (List.replicate 4 '0' ++ '-' :: (List.replicate 4 '0'
      ++ '-' :: (List.replicate 4 '0' ++ '-' :: List.replicate 12 '0'))) := by
  decide

/-- The upper-bound suffix as dash-joined runs of f. -/
theorem highTail_eq :
    highTail = '-' :: (List.replicate 4 'f' ++ '-' :: (List.replicate 4 'f'
      ++ '-' :: (List.replicate 4 'f' ++ '-' :: List.replicate 12 'f'))) := by
  decide

/-- A canonical UUID lies between the two range bounds built from an 8-digit
hex code exactly when its first 8 characters are that code. -/
theorem inRangeB_iff_take (code id : List Char) (hlen : code.length = 8)
    (hcan : canonicalUuid id = true) :
    inRangeB code id = true ↔ id.take 8 = code := by
  obtain ⟨g1, g2, g3, g4, g5, hid, l1, l2, l3, l4, l5, x1, x2, x3, x4, x5⟩ :=
    canonicalUuid_decomp hcan
  have htake : id.take 8 = g1 := by
    rw [hid, ← l1, List.take_left]
  constructor
  · intro hr
    by_contra hne
    rw [htake] at hne
    obtain ⟨p, a, b, xs, ys, hab, hg1, hcode⟩ :=
      ne_first_diff g1 code (by rw [l1, hlen]) hne
    simp only [inRangeB, Bool.and_eq_true] at hr
    rcases lt_or_gt_of_ne hab with hlt | hgt
    · have e1 : lowBound code = p ++ b :: (ys ++ lowTail) := by
        rw [lowBound, hcode]
        simp [List.append_assoc]
      have e2 : id = p ++ a :: (xs ++ '-' :: (g2 ++ '-' :: (g3 ++ '-' :: (g4 ++ '-' :: g5)))) := by
        rw [hid, hg1]
        simp [List.append_assoc]
      have hfalse := lexLe_gt_false p a b
        (xs ++ '-' :: (g2 ++ '-' :: (g3 ++ '-' :: (g4 ++ '-' :: g5)))) (ys ++ lowTail) hlt
      rw [← e1, ← e2] at hfalse
      rw [hr.1] at hfalse
      cases hfalse
    · have e1 : highBound code = p ++ b :: (ys ++ highTail) := by
        rw [highBound, hcode]
        simp [List.append_assoc]
      have e2 : id = p ++ a :: (xs ++ '-' :: (g2 ++ '-' :: (g3 ++ '-' :: (g4 ++ '-' :: g5)))) := by
        rw [hid, hg1]
        simp [List.append_assoc]
      have hfalse := lexLe_gt_false p b a (ys ++ highTail)
        (xs ++ '-' :: (g2 ++ '-' :: (g3 ++ '-' :: (g4 ++ '-' :: g5)))) hgt
      rw [← e1, ← e2] at hfalse
      rw [hr.2] at hfalse
      cases hfalse
  · intro hpre
    have hg1 : g1 = code := htake.symm.trans hpre
    simp only [inRangeB, lowBound, highBound, Bool.and_eq_true]
    rw [hid, hg1]
    constructor
    · rw [lexLe_append_left]
      apply lexLe_of_forall₂
      rw [lowTail_eq]
      refine List.Forall₂.cons (le_refl _) ?_
      refine forall₂_le_append (l2 ▸ forall₂_zero_hex x2) ?_
      refine List.Forall₂.cons (le_refl _) ?_
      refine forall₂_le_append (l3 ▸ forall₂_zero_hex x3) ?_
      refine List.Forall₂.cons (le_refl _) ?_
      refine forall₂_le_append (l4 ▸ forall₂_zero_hex x4) ?_
      exact List.Forall₂.cons (le_refl _) (l5 ▸ forall₂_zero_hex x5)
    · rw [lexLe_append_left]
      apply lexLe_of_forall₂
      rw [highTail_eq]
      refine List.Forall₂.cons (le_refl _) ?_
      refine forall₂_le_append (l2 ▸ forall₂_hex_f x2) ?_
      refine List.Forall₂.cons (le_refl _) ?_
      refine forall₂_le_append (l3 ▸ forall₂_hex_f x3) ?_
      refine List.Forall₂.cons (le_refl _) ?_
      refine forall₂_le_append (l4 ▸ forall₂_hex_f x4) ?_
      exact List.Forall₂.cons (le_refl _) (l5 ▸ forall₂_hex_f x5)

/-- Row of the `orders` table as read by `get_order_by_code` (the id in its
textual UUID form, on which the range filters compare). -/
structure StoredOrder where
  id : List Char
  status : String
  total_amount : ℚ
  delivery_address : String
  created_at : String
  deriving DecidableEq, Repr

/-- Row of `order_item_sides` joined with its side name, as hydrated for the
public tracking response. -/
structure TrackedSide where
  id : String
  order_item_id : String
  extra_price : ℚ
  side_name : Option String
  deriving DecidableEq, Repr

/-- Row of `order_items` joined with its item name, as hydrated for the
public tracking response. -/
structure TrackedItem where
  id : String
  order_id : List Char
  quantity : ℕ
  price : ℚ
  item_name : Option String
  deriving DecidableEq, Repr

/-- One hydrated item of the public tracking response. -/
structure TrackedItemResp where
  item : TrackedItem
  sides : List TrackedSide
  deriving DecidableEq, Repr

/-- The public tracking response of `get_order_by_code`. -/
structure PublicOrder where
  order_code : List Char
  status : String
  total_price : ℚ
  delivery_address : String
  created_at : String
  items : List TrackedItemResp
  deriving DecidableEq, Repr

/-- Embeds `get_order_by_code` (`orders/service.py`): an 8-character code is
required (400 otherwise); the store is range-scanned between the
lexicographically smallest and largest completions of the code; the first row
returned is re-checked to actually start with the code (404 when it does not,
as when nothing matched); the response is assembled with the order's items
and sides. The store may return matching rows in any order; the model uses
table order. -/
def get_order_by_code (orders : List StoredOrder) (orderItems : List TrackedItem)
    (itemSides : List TrackedSide) (code : List Char) : Except HttpError PublicOrder :=
  if code.length ≠ 8 then
    .error (.badRequest "Invalid order code format")
  else
    match orders.filter (fun o => inRangeB code o.id) with
    | [] => .error (.notFound "Order not found")
    | o :: _ =>
      if code.isPrefixOf o.id then
        .ok { order_code := code, status := o.status, total_price := o.total_amount,
              delivery_address := o.delivery_address, created_at := o.created_at,
              items := (orderItems.filter (fun it => it.order_id == o.id)).map
                (fun it => { item := it,
                             sides := itemSides.filter (fun s => s.order_item_id == it.id) }) }
      else
        .error (.notFound "Order not found")

/-- C4. Over stores whose order ids are canonical textual UUIDs,
`get_order_by_code` with an 8-character code answers success only with a
response built from a stored order whose first 8 id characters equal the
code; when no stored order has that prefix it answers 404 NotFound (the
range bounds admit no other row, and the client-side re-check guards the
boundary); when an order with the prefix exists the lookup does succeed; and
it never answers an internal server error. -/
theorem get_order_by_code_prefix_lookup (orders : List StoredOrder)
    (orderItems : List TrackedItem) (itemSides : List TrackedSide) (code : List Char)
    (hlen : code.length = 8)
    (hcan : ∀ o ∈ orders, canonicalUuid o.id = true) :
    (∀ resp, get_order_by_code orders orderItems itemSides code = .ok resp →
      resp.order_code = code ∧
      ∃ o ∈ orders, o.id.take 8 = code ∧ resp.status = o.status
        ∧ resp.total_price = o.total_amount)
    ∧ ((∀ o ∈ orders, o.id.take 8 ≠ code) →
        get_order_by_code orders orderItems itemSides code
          = .error (.notFound "Order not found"))
    ∧ ((∃ o ∈ orders, o.id.take 8 = code) →
        ∃ resp, get_order_by_code orders orderItems itemSides code = .ok resp
          ∧ resp.order_code = code)
    ∧ (∀ d, get_order_by_code orders orderItems itemSides code
        ≠ .error (.internalError d)) := by
  refine ⟨?_, ?_, ?_, ?_⟩
  · intro resp h
    unfold get_order_by_code at h
    rw [if_neg (by simp [hlen])] at h
    cases hm : orders.filter (fun o => inRangeB code o.id) with
    | nil => rw [hm] at h; cases h
    | cons o rest =>
      rw [hm] at h
      dsimp only at h
      have homem : o ∈ orders.filter (fun o => inRangeB code o.id) := by
        rw [hm]; exact List.mem_cons_self o rest
      have hmem := List.mem_filter.mp homem
      have htake : o.id.take 8 = code :=
        (inRangeB_iff_take code o.id hlen (hcan o hmem.1)).mp hmem.2
      have hpref : code.isPrefixOf o.id = true := by
        rw [List.isPrefixOf_iff_prefix, List.prefix_iff_eq_take, hlen]
        exact htake.symm
      rw [if_pos hpref] at h
      cases h
      exact ⟨rfl, o, hmem.1, htake, rfl, rfl⟩
  · intro hnone
    unfold get_order_by_code
    rw [if_neg (by simp [hlen])]
    have hfil : orders.filter (fun o => inRangeB code o.id) = [] := by
      rw [List.filter_eq_nil_iff]
      intro o ho hr
      exact hnone o ho ((inRangeB_iff_take code o.id hlen (hcan o ho)).mp hr)
    rw [hfil]
  · rintro ⟨o, ho, hpre⟩
    unfold get_order_by_code
    rw [if_neg (by simp [hlen])]
    have homem : o ∈ orders.filter (fun o => inRangeB code o.id) :=
      List.mem_filter.mpr ⟨ho, (inRangeB_iff_take code o.id hlen (hcan o ho)).mpr hpre⟩
    cases hm : orders.filter (fun o => inRangeB code o.id) with
    | nil => rw [hm] at homem; cases homem
    | cons o' rest =>
      have ho'mem := List.mem_filter.mp (hm ▸ List.mem_cons_self o' rest)
      have htake' : o'.id.take 8 = code :=
        (inRangeB_iff_take code o'.id hlen (hcan o' ho'mem.1)).mp ho'mem.2
      have hpref : code.isPrefixOf o'.id = true := by
        rw [List.isPrefixOf_iff_prefix, List.prefix_iff_eq_take, hlen]
        exact htake'.symm
      dsimp only
      rw [if_pos hpref]
      exact ⟨_, rfl, rfl⟩
  · intro d
    unfold get_order_by_code
    rw [if_neg (by simp [hlen])]
    cases orders.filter (fun o => inRangeB code o.id) with
    | nil => simp
    | cons o rest =>
      by_cases hpref : code.isPrefixOf o.id = true
      · simp [hpref]
      · simp [hpref]

/-- The 8-character tracking code of the lookup experiments. -/
def codeFix : List Char := "abcd1234".data

/-- Order whose id has the queried 8-character prefix. -/
def oTarget : StoredOrder :=
  { id := "abcd1234-0000-0000-0000-000000000001".data, status := "pending",
    total_amount := 8000, delivery_address := "Douala, Akwa", created_at := "2024-01-01" }

/-- Order at the lexicographic boundary just below the queried prefix. -/
def oNeigh : StoredOrder :=
  { id := "abcd1233-ffff-ffff-ffff-ffffffffffff".data, status := "pending",
    total_amount := 100, delivery_address := "Douala, Akwa", created_at := "2024-01-01" }

/-- The boundary regression scenario: with a neighbour order whose id is the
largest UUID below the prefix range, the lookup still returns exactly the
order carrying the prefix. -/
theorem get_order_by_code_boundary :
    get_order_by_code [oNeigh, oTarget] [] [] codeFix
      = .ok { order_code := codeFix, status := "pending", total_price := 8000,
              delivery_address := "Douala, Akwa", created_at := "2024-01-01",
              items := [] } := by
  rfl

/-- Witness for C4: on a store holding only the boundary neighbour the
lookup answers 404 NotFound, and with the prefixed order added it succeeds
with that code. -/
theorem get_order_by_code_prefix_lookup_witness :
    get_order_by_code [oNeigh] [] [] codeFix = .error (.notFound "Order not found")
    ∧ ∃ resp, get_order_by_code [oNeigh, oTarget] [] [] codeFix = .ok resp
        ∧ resp.order_code = codeFix :=
  ⟨(get_order_by_code_prefix_lookup [oNeigh] [] [] codeFix (by decide)
      (by decide)).2.1 (by decide),
   (get_order_by_code_prefix_lookup [oNeigh, oTarget] [] [] codeFix (by decide)
      (by decide)).2.2.1
     ⟨oTarget, List.mem_cons_of_mem _ (List.mem_cons_self _ _), by decide⟩⟩

end RestauBack
